import Mathlib

/-!
Verification of the incremental extraction-and-deduplication pipeline of
`src/modules/webscraping.py` (class `WebScraper`).

The development shallowly embeds the pure text-processing functions
(`extract_post_metadata_from_raw`, `create_basic_formatted_content`,
`is_title_line_simple`, the line-splitting prelude of `process_single_post`),
the per-post pipeline (`process_single_post`), the incremental extraction loop
(`extract_content_incrementally`), the selector fallback chain, the
`fallback_content_extraction` helper, and the scroll/expand loop of
`scroll_and_load_content`.

Python strings are modelled as Lean `String`s; the Python primitives
`str.strip`, `str.split("\n")`, `str.lower`, `in` (substring test),
`str.startswith`, slicing `[:n]`, and `"\n".join` are given explicit
executable translations over `List Char` so that every definition evaluates
inside the kernel.

The database manager (`src/modules/database.py`) is not part of the sources;
its operations consumed by the pipeline (`create_post_hash`, `post_exists`,
`save_post`) are modelled from the spec as an oracle record `DBOps`, with the
ideal store `idealOps` instantiating it.  Oracle calls may fail (`Except`),
mirroring Python exceptions raised by the database layer.
-/

/-- Python `str.lstrip()` on code points: drop leading whitespace. -/
def stripStart (l : List Char) : List Char :=
  l.dropWhile Char.isWhitespace

/-- Python `str.rstrip()` on code points: drop trailing whitespace. -/
def stripEnd : List Char → List Char
  | [] => []
  | c :: cs =>
    match stripEnd cs with
    | [] => if c.isWhitespace then [] else [c]
    | r => c :: r

/-- Python `str.strip()`: drop whitespace from both ends. -/
def pyStrip (s : String) : String :=
  String.mk (stripStart (stripEnd s.data))

/-- Helper for `pySplitNl`: accumulate the current chunk (reversed). -/
def splitNlAux : List Char → List Char → List String
  | [], acc => [String.mk acc.reverse]
  | c :: rest, acc =>
    if c = '\n' then String.mk acc.reverse :: splitNlAux rest []
    else splitNlAux rest (c :: acc)

/-- Python `str.split("\n")`. -/
def pySplitNl (s : String) : List String :=
  splitNlAux s.data []

/-- Python `str.lower()` (ASCII case folding, which covers every keyword the
scraper compares against). -/
def pyLower (s : String) : String :=
  String.mk (s.data.map Char.toLower)

/-- Does `p` occur at the head of `s`? -/
def listStarts : List Char → List Char → Bool
  | [], _ => true
  | _ :: _, [] => false
  | p :: ps, c :: cs => p = c && listStarts ps cs

/-- Does `pat` occur anywhere inside `s`? -/
def listHasSub (pat : List Char) : List Char → Bool
  | [] => pat.isEmpty
  | s@(_ :: cs) => listStarts pat s || listHasSub pat cs

/-- Python `pat in s` (substring occurrence). -/
def pyIn (pat s : String) : Bool :=
  listHasSub pat.data s.data

/-- Python `s.startswith(pat)`. -/
def pyStartsWith (s pat : String) : Bool :=
  listStarts pat.data s.data

/-- Python slicing `s[:n]` (first `n` code points). -/
def pyTake (s : String) (n : Nat) : String :=
  String.mk (s.data.take n)

/-- Python `"\n".join(lines)`. -/
def pyJoinNl : List String → String
  | [] => ""
  | [x] => x
  | x :: rest => x ++ "\n" ++ pyJoinNl rest

/-- Helper for `pySplitWs`: split on whitespace, dropping empty chunks
(HTML class-attribute tokenisation). -/
def splitWsAux : List Char → List Char → List String
  | [], acc => if acc.isEmpty then [] else [String.mk acc.reverse]
  | c :: rest, acc =>
    if c.isWhitespace then
      if acc.isEmpty then splitWsAux rest []
      else String.mk acc.reverse :: splitWsAux rest []
    else splitWsAux rest (c :: acc)

/-- Split a class attribute into its whitespace-separated tokens. -/
def pySplitWs (s : String) : List String :=
  splitWsAux s.data []

/-! ## Metadata parsing (`extract_post_metadata_from_raw`, lines 483-540) -/

/-- The fixed title keyword set of `extract_post_metadata_from_raw`. -/
def title_keywords : List String :=
  ["open for applications", "hiring", "placement", "job", "internship",
   "hackathon", "campus connect", "webinar"]

/-- The condition of the title loop: some keyword occurs in `line.lower()`
and `len(line) > 20`. -/
def title_cond (line : String) : Bool :=
  title_keywords.any (fun pattern => pyIn pattern (pyLower line)) &&
    decide (20 < line.length)

/-- The `for line in content_lines[:5]` title loop (the `[:5]` slice is taken
by the caller `extract_post_metadata_from_raw`). -/
def title_loop : List String → String
  | [] => "Untitled Post"
  | line :: rest => if title_cond line then pyTake line 100 else title_loop rest

/-- The known-author allowlist. -/
def author_names : List String :=
  ["anurag srivastava", "anita marwaha", "vinod kumar", "archita kumar",
   "deeksha jain", "placement team", "sanjay dawar", "breg. sanjay dawar"]

/-- The author-line condition: some allowlisted name occurs in `line.lower()`. -/
def author_cond (line : String) : Bool :=
  author_names.any (fun name => pyIn name (pyLower line))

/-- The author loop over all content lines. -/
def author_loop : List String → String
  | [] => ""
  | line :: rest => if author_cond line then pyStrip line else author_loop rest

/-- The relative-time keyword list. -/
def time_keywords : List String :=
  ["days ago", "hours ago", "minutes ago", "yesterday", "today", "hrs",
   "mins", "ago"]

/-- The posted-time condition: some time keyword occurs in `line.lower()`. -/
def time_cond (line : String) : Bool :=
  time_keywords.any (fun keyword => pyIn keyword (pyLower line))

/-- The posted-time loop over all content lines. -/
def time_loop : List String → String
  | [] => ""
  | line :: rest => if time_cond line then pyStrip line else time_loop rest

/-- `extract_post_metadata_from_raw(content_lines)`: returns
`(title, author, posted_time)`. -/
def extract_post_metadata_from_raw (content_lines : List String) :
    String × String × String :=
  (title_loop (content_lines.take 5), author_loop content_lines,
   time_loop content_lines)

/-! ## Content formatting (`create_basic_formatted_content`,
`is_title_line_simple`, lines 542-596) -/

/-- `is_title_line_simple(line)`: keyword match plus the 20-150 length window. -/
def is_title_line_simple (line : String) : Bool :=
  title_keywords.any (fun pattern => pyIn pattern (pyLower line)) &&
    decide (20 < line.length) && decide (line.length < 150)

/-- The body of the `for line in content_lines` loop of
`create_basic_formatted_content`, producing the `formatted_lines` list. -/
def format_lines : List String → List String
  | [] => []
  | line :: rest =>
    let l := pyStrip line
    if l = "" then format_lines rest
    else if l = "See Less" then format_lines rest
    else if pyStrip l = "·" then format_lines rest
    else if is_title_line_simple l then ("## " ++ l) :: format_lines rest
    else if pyIn "deadline" (pyLower l) then
      ("⚠️ DEADLINE: " ++ l) :: format_lines rest
    else if pyIn "eligibility" (pyLower l) || pyIn "process" (pyLower l) ||
        pyIn "benefits" (pyLower l) then
      ("**" ++ l ++ ":**") :: format_lines rest
    else if pyStartsWith l "•" || pyStartsWith l "-" then l :: format_lines rest
    else if pyIn "http" (pyLower l) || pyIn "www." (pyLower l) then
      ("🔗 " ++ l) :: format_lines rest
    else l :: format_lines rest

/-- `create_basic_formatted_content(content_lines)`. -/
def create_basic_formatted_content (content_lines : List String) : String :=
  pyJoinNl (format_lines content_lines)

/-! ## Line splitting in `process_single_post` (lines 666-676) -/

/-- The filtering loop of `process_single_post`: drop structural
`=== ... Content Block ...` marker lines, keep stripped non-empty lines. -/
def content_lines_of : List String → List String
  | [] => []
  | line :: rest =>
    if pyStartsWith (pyStrip line) "===" && pyIn "Content Block" line then
      content_lines_of rest
    else if pyStrip line = "" then content_lines_of rest
    else pyStrip line :: content_lines_of rest

/-- The meaningful lines of a candidate block:
`content_text.split("\n")` filtered as in `process_single_post`. -/
def meaningful_lines (content_text : String) : List String :=
  content_lines_of (pySplitNl content_text)

/-! ## Per-post processing (`process_single_post`, lines 661-715) -/

/-- The `ExtractionOutcome` of one candidate block. -/
inductive Outcome
  | saved
  | duplicate
  | skipped
  | error
deriving DecidableEq, Repr

/-- The keyword arguments of `db_manager.save_post(...)`. -/
structure PostFields where
  title : String
  content : String
  raw_content : String
  author : String
  posted_time : String
deriving DecidableEq, Repr

/-- Modelled from the spec: the persistent store operations consumed by the
core (`MongoDBManager.create_post_hash`, `post_exists`, `save_post`;
`src/modules/database.py` is not among the sources).  Each operation threads
a store state `σ` and may fail with an exception message, mirroring Python
exceptions raised inside the `try` block of `process_single_post`. -/
structure DBOps (σ : Type) where
  hash_op : String → σ → Except String String × σ
  exists_op : String → σ → Except String Bool × σ
  save_op : PostFields → σ → Except String (Bool × String) × σ

/-- `process_single_post(content_text, n)`: split into meaningful lines,
skip short blocks, parse metadata, format, hash, dedup-check, save.  Any
failing store operation is caught and classified `error`, as by the
enclosing `try`/`except`. -/
def process_single_post {σ : Type} (ops : DBOps σ) (content_text : String)
    (s : σ) : Outcome × σ :=
  let content_lines := meaningful_lines content_text
  if content_lines = [] ∨ content_lines.length < 3 then (Outcome.skipped, s)
  else
    let meta := extract_post_metadata_from_raw content_lines
    let formatted_content := create_basic_formatted_content content_lines
    match ops.hash_op formatted_content s with
    | (Except.error _, s1) => (Outcome.error, s1)
    | (Except.ok content_hash, s1) =>
      match ops.exists_op content_hash s1 with
      | (Except.error _, s2) => (Outcome.error, s2)
      | (Except.ok true, s2) => (Outcome.duplicate, s2)
      | (Except.ok false, s2) =>
        let raw_content := pyJoinNl content_lines
        match ops.save_op
            ⟨meta.1, formatted_content, raw_content, meta.2.1, meta.2.2⟩ s2 with
        | (Except.error _, s3) => (Outcome.error, s3)
        | (Except.ok (true, _), s3) => (Outcome.saved, s3)
        | (Except.ok (false, _), s3) => (Outcome.error, s3)

/-- Modelled from the spec: `MongoDBManager.create_post_hash` is a
deterministic, collision-resistant digest of the formatted content
(missing from the sources); it is idealized here as the injective
identity encoding. -/
def create_post_hash (content : String) : String :=
  content

/-- Modelled from the spec: the ideal exception-free store over a list of
content hashes.  `save_ok` is the environment's verdict on each save attempt
(`save_post` returns a `(success, ...)` pair); a successful save records the
hash of the saved content. -/
def idealOps (save_ok : PostFields → Bool) : DBOps (List String) where
  hash_op := fun content s => (Except.ok (create_post_hash content), s)
  exists_op := fun h s => (Except.ok (decide (h ∈ s)), s)
  save_op := fun p s =>
    if save_ok p then (Except.ok (true, "inserted"), create_post_hash p.content :: s)
    else (Except.ok (false, "save failed"), s)

/-- A store whose save operation raises (used to exercise the per-post
error-recovery path): hashing and existence checks succeed, persistence
always throws. -/
def failing_save_ops : DBOps Unit where
  hash_op := fun content s => (Except.ok (create_post_hash content), s)
  exists_op := fun _ s => (Except.ok false, s)
  save_op := fun _ s => (Except.error "db down", s)

/-! ## Incremental extraction (`extract_content_incrementally`, lines 391-449) -/

/-- The observable result of one extraction pass, together with the ghost
trace `outcomes` (one entry per block handed to `process_single_post`, in
order; the Python loop produces these outcomes but only aggregates
`new_posts` and `processed_count`). -/
structure RunResult (σ : Type) where
  outcomes : List Outcome
  new_posts : List String
  processed_count : Nat
  final : σ
deriving DecidableEq, Repr

/-- The per-candidate loop: every entry of `blocks` is handed to
`process_single_post`; a `duplicate` outcome breaks out of the loop. -/
def run_candidates {σ : Type} (ops : DBOps σ) : List String → σ → RunResult σ
  | [], s => ⟨[], [], 0, s⟩
  | b :: rest, s =>
    let r := process_single_post ops b s
    if r.1 = Outcome.duplicate then ⟨[Outcome.duplicate], [], 1, r.2⟩
    else
      let R := run_candidates ops rest r.2
      ⟨r.1 :: R.outcomes,
       (if r.1 = Outcome.saved then b :: R.new_posts else R.new_posts),
       R.processed_count + 1, R.final⟩

/-- The element loop of `extract_content_incrementally`: strip each element's
text, keep it only when non-empty and longer than 50 characters, process it,
break on `duplicate`, and collect saved posts' (raw, stripped) text.  The
model receives the already-read `element.text` values; per-element access
failures caught at lines 442-443 are outside the model. -/
def extract_loop {σ : Type} (ops : DBOps σ) : List String → σ → RunResult σ
  | [], s => ⟨[], [], 0, s⟩
  | e :: rest, s =>
    let element_text := pyStrip e
    if element_text ≠ "" ∧ 50 < element_text.length then
      let r := process_single_post ops element_text s
      if r.1 = Outcome.duplicate then ⟨[Outcome.duplicate], [], 1, r.2⟩
      else
        let R := extract_loop ops rest r.2
        ⟨r.1 :: R.outcomes,
         (if r.1 = Outcome.saved then element_text :: R.new_posts
          else R.new_posts),
         R.processed_count + 1, R.final⟩
    else extract_loop ops rest s

/-- The value `extract_content_incrementally` actually returns:
`(new_posts, processed_count)`. -/
def extract_content_incrementally {σ : Type} (ops : DBOps σ)
    (elements : List String) (s : σ) : List String × Nat :=
  let R := extract_loop ops elements s
  (R.new_posts, R.processed_count)

/-! ## Selector fallback chain (lines 395-418) and
`fallback_content_extraction` (lines 451-479) -/

/-- A rendered `div` element: its `class` attribute and its visible text,
listed in document order. -/
structure Element where
  className : String
  text : String
deriving DecidableEq, Repr

/-- Does the element's class attribute contain the exact token `tok`? -/
def has_class (e : Element) (tok : String) : Bool :=
  (pySplitWs e.className).contains tok

/-- Does the element's class attribute contain `sub` as a substring
(CSS `[class*='sub']`)? -/
def class_has_sub (e : Element) (sub : String) : Bool :=
  pyIn sub e.className

/-- `div.px-5.pt-6.pb-0`. -/
def selector_px5_pt6_pb0 (e : Element) : Bool :=
  has_class e "px-5" && has_class e "pt-6" && has_class e "pb-0"

/-- `div.px-5.pt-5.pb-0`. -/
def selector_px5_pt5_pb0 (e : Element) : Bool :=
  has_class e "px-5" && has_class e "pt-5" && has_class e "pb-0"

/-- `div[class*='px-5'][class*='pt-'][class*='pb-0']`. -/
def selector_sub_px5_pt_pb0 (e : Element) : Bool :=
  class_has_sub e "px-5" && class_has_sub e "pt-" && class_has_sub e "pb-0"

/-- `div.px-5`. -/
def selector_px5 (e : Element) : Bool :=
  has_class e "px-5"

/-- `div[class*='px-5']` (the fallback query at lines 415-417). -/
def selector_sub_px5 (e : Element) : Bool :=
  class_has_sub e "px-5"

/-- The ordered `selectors_to_try` list. -/
def selectors_to_try : List (Element → Bool) :=
  [selector_px5_pt6_pb0, selector_px5_pt5_pb0, selector_sub_px5_pt_pb0,
   selector_px5]

/-- The `for selector in selectors_to_try` loop: first non-empty result wins. -/
def try_selectors : List (Element → Bool) → List Element → List Element
  | [], _ => []
  | p :: ps, doc =>
    let elements := doc.filter p
    if elements ≠ [] then elements else try_selectors ps doc

/-- The `content_elements` selection of `extract_content_incrementally`:
the selector chain, then - when every selector returned nothing - the broad
`div[class*='px-5']` query. -/
def select_content_elements (doc : List Element) : List Element :=
  let content_elements := try_selectors selectors_to_try doc
  if content_elements = [] then doc.filter selector_sub_px5
  else content_elements

/-- The accumulation loop of `fallback_content_extraction`: keep stripped
texts in the 100-5000 window, stop after collecting 10. -/
def fallback_loop : List Element → List String → List String
  | [], acc => acc
  | d :: ds, acc =>
    let text := pyStrip d.text
    if 100 < text.length ∧ text.length < 5000 then
      let acc2 := acc ++ [text]
      if 10 ≤ acc2.length then acc2 else fallback_loop ds acc2
    else fallback_loop ds acc

/-- `fallback_content_extraction()`: scan the first 50 `div` elements of the
document.  (This helper is defined in the class but never invoked by
`scrape`/`extract_content_incrementally`.) -/
def fallback_content_extraction (doc : List Element) : List String :=
  fallback_loop (doc.take 50) []

/-! ## Scroll/expand loop (`scroll_and_load_content`, lines 288-386) -/

/-- A candidate "See More" control as observed in one iteration. -/
structure SMButton where
  x : Int
  y : Int
  text : String
  displayed : Bool
  enabled : Bool
deriving DecidableEq, Repr

/-- `button_id = f"{x}-{y}-{text.strip()}"`. -/
def button_id (b : SMButton) : String :=
  toString b.x ++ "-" ++ toString b.y ++ "-" ++ pyStrip b.text

/-- What one loop iteration observes of the page: the unioned candidate
button list and the container's `scrollTop` after scrolling to the bottom. -/
structure ScrollObs where
  buttons : List SMButton
  scrollTop : Int

/-- The loop state: `last_scroll_top`, `scroll_attempts` (the stall counter)
and the identities of already-clicked buttons. -/
structure ScrollSt where
  last_scroll_top : Int
  scroll_attempts : Nat
  clicked_buttons : List String
deriving DecidableEq, Repr

/-- `max_attempts = 5`. -/
def max_attempts : Nat := 5

/-- The inner `for button in show_more_buttons` condition: not yet clicked,
displayed, enabled, and labelled "see more" (case-insensitively). -/
def clickable_button (st : ScrollSt) (b : SMButton) : Bool :=
  !(st.clicked_buttons.contains (button_id b)) && b.displayed && b.enabled &&
    pyIn "see more" (pyLower b.text)

/-- The button-clicking phase of one iteration: click the first qualifying
button (if any), record its identity, and reset the stall counter. -/
def click_phase (st : ScrollSt) (obs : ScrollObs) : ScrollSt :=
  match obs.buttons.find? (fun b => clickable_button st b) with
  | some b => { st with clicked_buttons := button_id b :: st.clicked_buttons,
                        scroll_attempts := 0 }
  | none => st

/-- One full iteration of the `while scroll_attempts < max_attempts` loop:
scroll to the bottom, try to click one "See More" control, then compare the
re-read `scrollTop` with `last_scroll_top` - unchanged increments the stall
counter, changed resets it. -/
def scroll_step (st : ScrollSt) (obs : ScrollObs) : ScrollSt :=
  let st1 := click_phase st obs
  if obs.scrollTop = st1.last_scroll_top then
    { st1 with scroll_attempts := st1.scroll_attempts + 1,
               last_scroll_top := obs.scrollTop }
  else
    { st1 with scroll_attempts := 0, last_scroll_top := obs.scrollTop }

/-- The state reached before iteration `n`, driven by the per-iteration
observations `env` (initially `last_scroll_top = 0`, `scroll_attempts = 0`,
no clicked buttons).  The loop body runs only under the precondition that a
scrollable container was found; the `while` guard is
`scroll_attempts < max_attempts`, so the pass has terminated by iteration `j`
as soon as `max_attempts ≤ (scroll_states env j).scroll_attempts`. -/
def scroll_states (env : Nat → ScrollObs) : Nat → ScrollSt
  | 0 => ⟨0, 0, []⟩
  | n + 1 => scroll_step (scroll_states env n) (env n)

/-! ## Spec-side definitions

The following definitions follow the spec's words (sections 4.3-4.5 and the
claims derived from them); the refinement theorems below compare them with
the embedded source functions. -/

/-- Spec 4.4: the per-line formatting rule, first matching rule in the stated
precedence order, applied to an already-trimmed non-empty line.  `none` means
the line is dropped. -/
def format_line_rule (line : String) : Option String :=
  if line = "See Less" ∨ line = "·" then none
  else if is_title_line_simple line then some ("## " ++ line)
  else if pyIn "deadline" (pyLower line) then some ("⚠️ DEADLINE: " ++ line)
  else if pyIn "eligibility" (pyLower line) ∨ pyIn "process" (pyLower line) ∨
      pyIn "benefits" (pyLower line) then some ("**" ++ line ++ ":**")
  else if pyStartsWith line "•" ∨ pyStartsWith line "-" then some line
  else if pyIn "http" (pyLower line) ∨ pyIn "www." (pyLower line) then
    some ("🔗 " ++ line)
  else some line

/-- Spec 4.4: the formatter as described - trim, drop empty lines, apply the
rule per line, join with newlines in original order. -/
def spec_formatted_content (lines : List String) : String :=
  pyJoinNl (((lines.map pyStrip).filter (fun l => l ≠ "")).filterMap
    format_line_rule)

/-- Spec 4.3: the title - first of the first 5 lines that is longer than 20
characters and contains a title keyword, truncated to 100 characters,
defaulting to the sentinel. -/
def spec_title (lines : List String) : String :=
  match (lines.take 5).find? title_cond with
  | some line => pyTake line 100
  | none => "Untitled Post"

/-- Spec 4.3: the author - first line anywhere containing an allowlisted
name, defaulting to empty. -/
def spec_author (lines : List String) : String :=
  match lines.find? author_cond with
  | some line => pyStrip line
  | none => ""

/-- Spec 4.3: the posted time - first line anywhere containing a
relative-time keyword, defaulting to empty. -/
def spec_posted_time (lines : List String) : String :=
  match lines.find? time_cond with
  | some line => pyStrip line
  | none => ""

/-! ## Derived notions used to state the claims -/

/-- The candidate blocks of an element-text sequence: stripped texts that are
non-empty and longer than 50 characters, in extraction order. -/
def candidate_blocks (elements : List String) : List String :=
  (elements.map pyStrip).filter (fun t => decide (t ≠ "" ∧ 50 < t.length))

/-- The store state just before the `j`-th candidate block is processed
(ideal store, initial hash list `s`). -/
def db_at (save_ok : PostFields → Bool) (blocks : List String)
    (s : List String) (j : Nat) : List String :=
  (run_candidates (idealOps save_ok) (blocks.take j) s).final

/-- The outcome the pipeline computes for the `j`-th candidate block, given
the store state it sees at that point. -/
def outcome_at (save_ok : PostFields → Bool) (blocks : List String)
    (s : List String) (j : Nat) : Outcome :=
  (process_single_post (idealOps save_ok) (blocks.getD j "")
    (db_at save_ok blocks s j)).1

/-- Block `j`'s formatted-content hash already exists in the store it is
checked against, and the block survives the minimum-line gate (so the hash
query is actually reached). -/
def dup_signal (save_ok : PostFields → Bool) (blocks : List String)
    (s : List String) (j : Nat) : Prop :=
  3 ≤ (meaningful_lines (blocks.getD j "")).length ∧
    create_post_hash (create_basic_formatted_content
      (meaningful_lines (blocks.getD j ""))) ∈ db_at save_ok blocks s j

instance (save_ok : PostFields → Bool) (blocks : List String)
    (s : List String) (j : Nat) :
    Decidable (dup_signal save_ok blocks s j) := by
  unfold dup_signal
  infer_instance

/-- A stalled environment for the scroll loop: no buttons, constant
`scrollTop` 0. -/
def stalledEnv : Nat → ScrollObs :=
  fun _ => ⟨[], 0⟩

/-! ## Helper lemmas -/

theorem dropWhile_dropWhile (p : Char → Bool) (l : List Char) :
    (l.dropWhile p).dropWhile p = l.dropWhile p := by
  induction l with
  | nil => rfl
  | cons c cs ih =>
    by_cases h : p c <;> simp [List.dropWhile_cons, h, ih]

theorem stripStart_stripStart (l : List Char) :
    stripStart (stripStart l) = stripStart l := by
  simp [stripStart, dropWhile_dropWhile]

theorem stripEnd_cons_nil {cs : List Char} (c : Char) (h : stripEnd cs = []) :
    stripEnd (c :: cs) = if c.isWhitespace then [] else [c] := by
  rw [stripEnd, h]

theorem stripEnd_cons_cons {cs xs : List Char} (c x : Char)
    (h : stripEnd cs = x :: xs) : stripEnd (c :: cs) = c :: x :: xs := by
  rw [stripEnd, h]

theorem stripEnd_stripEnd (l : List Char) :
    stripEnd (stripEnd l) = stripEnd l := by
  induction l with
  | nil => rfl
  | cons c cs ih =>
    cases h : stripEnd cs with
    | nil =>
      rw [stripEnd_cons_nil c h]
      by_cases hc : c.isWhitespace
      · simp [hc, stripEnd]
      · simp [hc]
        have he : stripEnd ([] : List Char) = [] := rfl
        rw [stripEnd_cons_nil c he]
        simp [hc]
    | cons x xs =>
      rw [h] at ih
      rw [stripEnd_cons_cons c x h, stripEnd_cons_cons c x ih]

theorem stripEnd_stripStart (l : List Char) (h : stripEnd l = l) :
    stripEnd (stripStart l) = stripStart l := by
  induction l with
  | nil => rfl
  | cons c cs ih =>
    cases hcs : stripEnd cs with
    | nil =>
      by_cases hc : c.isWhitespace
      · rw [stripEnd_cons_nil c hcs] at h
        simp [hc] at h
      · rw [stripEnd_cons_nil c hcs] at h
        simp [hc] at h
        subst h
        simp [stripStart, List.dropWhile_cons, hc]
        have he : stripEnd ([] : List Char) = [] := rfl
        rw [stripEnd_cons_nil c he]
        simp [hc]
    | cons x xs =>
      rw [stripEnd_cons_cons c x hcs] at h
      have h3 : x :: xs = cs := by injection h
      have h2 : stripEnd cs = cs := by rw [h3] at hcs; exact hcs
      by_cases hc : c.isWhitespace
      · simp [stripStart, List.dropWhile_cons, hc]
        have h4 := ih h2
        simpa [stripStart] using h4
      · simp [stripStart, List.dropWhile_cons, hc]
        rw [stripEnd_cons_cons c x hcs, h3]

theorem pyStrip_pyStrip (s : String) : pyStrip (pyStrip s) = pyStrip s := by
  unfold pyStrip
  have h1 : stripEnd (stripEnd s.data) = stripEnd s.data := stripEnd_stripEnd _
  have h2 : stripEnd (stripStart (stripEnd s.data)) =
      stripStart (stripEnd s.data) := stripEnd_stripStart _ h1
  simp [h2, stripStart_stripStart]

theorem title_loop_eq_find (lines : List String) :
    title_loop lines = (match lines.find? title_cond with
      | some line => pyTake line 100
      | none => "Untitled Post") := by
  induction lines with
  | nil => rfl
  | cons l rest ih =>
    by_cases h : title_cond l <;> simp [title_loop, List.find?_cons, h, ih]

theorem author_loop_eq_find (lines : List String) :
    author_loop lines = (match lines.find? author_cond with
      | some line => pyStrip line
      | none => "") := by
  induction lines with
  | nil => rfl
  | cons l rest ih =>
    by_cases h : author_cond l <;> simp [author_loop, List.find?_cons, h, ih]

theorem time_loop_eq_find (lines : List String) :
    time_loop lines = (match lines.find? time_cond with
      | some line => pyStrip line
      | none => "") := by
  induction lines with
  | nil => rfl
  | cons l rest ih =>
    by_cases h : time_cond l <;> simp [time_loop, List.find?_cons, h, ih]

theorem format_lines_cons (line : String) (rest : List String) :
    format_lines (line :: rest) =
      (if pyStrip line = "" then []
       else (format_line_rule (pyStrip line)).toList) ++ format_lines rest := by
  simp only [format_lines, format_line_rule, pyStrip_pyStrip]
  split_ifs <;> simp_all [Bool.or_eq_true]

theorem format_lines_eq_filterMap (lines : List String) :
    format_lines lines =
      ((lines.map pyStrip).filter (fun l => l ≠ "")).filterMap
        format_line_rule := by
  induction lines with
  | nil => rfl
  | cons line rest ih =>
    rw [format_lines_cons, ih]
    simp only [List.map_cons, List.filter_cons]
    by_cases h : pyStrip line = ""
    · simp [h]
    · cases hr : format_line_rule (pyStrip line) <;>
        simp [h, hr, List.filterMap_cons]

theorem process_ideal_duplicate_iff (save_ok : PostFields → Bool)
    (b : String) (s : List String) :
    (process_single_post (idealOps save_ok) b s).1 = Outcome.duplicate ↔
      (3 ≤ (meaningful_lines b).length ∧
        create_post_hash (create_basic_formatted_content (meaningful_lines b))
          ∈ s) := by
  unfold process_single_post idealOps
  by_cases h : meaningful_lines b = [] ∨ (meaningful_lines b).length < 3
  · have h3 : ¬ 3 ≤ (meaningful_lines b).length := by
      rcases h with h | h
      · simp [h]
      · omega
    simp [h, h3]
  · have h3 : 3 ≤ (meaningful_lines b).length := by
      push_neg at h
      omega
    by_cases hm : create_post_hash
        (create_basic_formatted_content (meaningful_lines b)) ∈ s
    · simp [h, hm, h3]
    · by_cases hs : save_ok ⟨(extract_post_metadata_from_raw
          (meaningful_lines b)).1,
          create_basic_formatted_content (meaningful_lines b),
          pyJoinNl (meaningful_lines b),
          (extract_post_metadata_from_raw (meaningful_lines b)).2.1,
          (extract_post_metadata_from_raw (meaningful_lines b)).2.2⟩ <;>
        simp [h, hm, h3, hs]

theorem process_ideal_state (save_ok : PostFields → Bool) (b : String)
    (s : List String)
    (h : (process_single_post (idealOps save_ok) b s).1 ≠ Outcome.saved) :
    (process_single_post (idealOps save_ok) b s).2 = s := by
  unfold process_single_post idealOps at h ⊢
  by_cases hsk : meaningful_lines b = [] ∨ (meaningful_lines b).length < 3
  · simp [hsk]
  · by_cases hm : create_post_hash
        (create_basic_formatted_content (meaningful_lines b)) ∈ s
    · simp [hsk, hm]
    · by_cases hs : save_ok ⟨(extract_post_metadata_from_raw
          (meaningful_lines b)).1,
          create_basic_formatted_content (meaningful_lines b),
          pyJoinNl (meaningful_lines b),
          (extract_post_metadata_from_raw (meaningful_lines b)).2.1,
          (extract_post_metadata_from_raw (meaningful_lines b)).2.2⟩
      · simp [hsk, hm, hs] at h
      · simp [hsk, hm, hs]

theorem run_candidates_nil {σ : Type} (ops : DBOps σ) (s : σ) :
    run_candidates ops [] s = ⟨[], [], 0, s⟩ := rfl

theorem run_candidates_cons_dup {σ : Type} (ops : DBOps σ) (b : String)
    (rest : List String) (s : σ)
    (h : (process_single_post ops b s).1 = Outcome.duplicate) :
    run_candidates ops (b :: rest) s =
      ⟨[Outcome.duplicate], [], 1, (process_single_post ops b s).2⟩ := by
  simp [run_candidates, h]

theorem run_candidates_cons_nodup {σ : Type} (ops : DBOps σ) (b : String)
    (rest : List String) (s : σ)
    (h : (process_single_post ops b s).1 ≠ Outcome.duplicate) :
    run_candidates ops (b :: rest) s =
      ⟨(process_single_post ops b s).1 ::
         (run_candidates ops rest (process_single_post ops b s).2).outcomes,
       (if (process_single_post ops b s).1 = Outcome.saved then
          b :: (run_candidates ops rest
            (process_single_post ops b s).2).new_posts
        else (run_candidates ops rest
            (process_single_post ops b s).2).new_posts),
       (run_candidates ops rest
          (process_single_post ops b s).2).processed_count + 1,
       (run_candidates ops rest (process_single_post ops b s).2).final⟩ := by
  simp [run_candidates, h]

theorem extract_loop_eq_run_candidates {σ : Type} (ops : DBOps σ)
    (elements : List String) (s : σ) :
    extract_loop ops elements s =
      run_candidates ops (candidate_blocks elements) s := by
  induction elements generalizing s with
  | nil => rfl
  | cons e rest ih =>
    by_cases h : pyStrip e ≠ "" ∧ 50 < (pyStrip e).length
    · simp only [extract_loop, candidate_blocks, List.map_cons,
        List.filter_cons]
      simp only [candidate_blocks] at ih
      simp [h, run_candidates, ih]
    · simp only [extract_loop, candidate_blocks, List.map_cons,
        List.filter_cons]
      simp only [candidate_blocks] at ih
      simp [h, ih]

theorem extract_loop_count_eq_outcomes {σ : Type} (ops : DBOps σ)
    (elements : List String) (s : σ) :
    (extract_loop ops elements s).processed_count =
      (extract_loop ops elements s).outcomes.length := by
  induction elements generalizing s with
  | nil => rfl
  | cons e rest ih =>
    by_cases h : pyStrip e ≠ "" ∧ 50 < (pyStrip e).length
    · by_cases hd :
          (process_single_post ops (pyStrip e) s).1 = Outcome.duplicate <;>
        simp [extract_loop, h, hd, ih]
    · simp [extract_loop, h, ih]

theorem extract_loop_new_posts_length {σ : Type} (ops : DBOps σ)
    (elements : List String) (s : σ) :
    (extract_loop ops elements s).new_posts.length =
      ((extract_loop ops elements s).outcomes.filter
        (fun o => o = Outcome.saved)).length := by
  induction elements generalizing s with
  | nil => rfl
  | cons e rest ih =>
    by_cases h : pyStrip e ≠ "" ∧ 50 < (pyStrip e).length
    · by_cases hd :
          (process_single_post ops (pyStrip e) s).1 = Outcome.duplicate
      · simp [extract_loop, h, hd]
      · by_cases hs :
            (process_single_post ops (pyStrip e) s).1 = Outcome.saved <;>
          simp [extract_loop, h, hd, hs, ih]
    · simp [extract_loop, h, ih]

theorem fallback_loop_cons_take {d : Element} {acc : List String}
    (ds : List Element)
    (hw : 100 < (pyStrip d.text).length ∧ (pyStrip d.text).length < 5000)
    (hf : 10 ≤ (acc ++ [pyStrip d.text]).length) :
    fallback_loop (d :: ds) acc = acc ++ [pyStrip d.text] := by
  simp only [fallback_loop]
  rw [if_pos hw, if_pos hf]

theorem fallback_loop_cons_go {d : Element} {acc : List String}
    (ds : List Element)
    (hw : 100 < (pyStrip d.text).length ∧ (pyStrip d.text).length < 5000)
    (hf : ¬ 10 ≤ (acc ++ [pyStrip d.text]).length) :
    fallback_loop (d :: ds) acc = fallback_loop ds (acc ++ [pyStrip d.text]) := by
  simp only [fallback_loop]
  rw [if_pos hw, if_neg hf]

theorem fallback_loop_cons_skip {d : Element} {acc : List String}
    (ds : List Element)
    (hw : ¬ (100 < (pyStrip d.text).length ∧ (pyStrip d.text).length < 5000)) :
    fallback_loop (d :: ds) acc = fallback_loop ds acc := by
  simp only [fallback_loop]
  rw [if_neg hw]

theorem fallback_loop_length_le (ds : List Element) (acc : List String)
    (h : acc.length < 10) : (fallback_loop ds acc).length ≤ 10 := by
  induction ds generalizing acc with
  | nil => simpa [fallback_loop] using Nat.le_of_lt h
  | cons d ds ih =>
    by_cases hw : 100 < (pyStrip d.text).length ∧ (pyStrip d.text).length < 5000
    · by_cases hf : 10 ≤ (acc ++ [pyStrip d.text]).length
      · rw [fallback_loop_cons_take ds hw hf]
        simp
        omega
      · rw [fallback_loop_cons_go ds hw hf]
        apply ih
        simp at hf ⊢
        omega
    · rw [fallback_loop_cons_skip ds hw]
      exact ih acc h

theorem fallback_loop_window (ds : List Element) (acc : List String)
    (h : ∀ t ∈ acc, 100 < t.length ∧ t.length < 5000) :
    ∀ t ∈ fallback_loop ds acc, 100 < t.length ∧ t.length < 5000 := by
  induction ds generalizing acc with
  | nil => simpa [fallback_loop] using h
  | cons d ds ih =>
    by_cases hw : 100 < (pyStrip d.text).length ∧ (pyStrip d.text).length < 5000
    · have h2 : ∀ t ∈ acc ++ [pyStrip d.text],
          100 < t.length ∧ t.length < 5000 := by
        intro t ht
        rcases List.mem_append.mp ht with ht | ht
        · exact h t ht
        · simp at ht
          simpa [ht] using hw
      by_cases hf : 10 ≤ (acc ++ [pyStrip d.text]).length
      · rw [fallback_loop_cons_take ds hw hf]
        exact h2
      · rw [fallback_loop_cons_go ds hw hf]
        exact ih _ h2
    · rw [fallback_loop_cons_skip ds hw]
      exact ih acc h

theorem fallback_loop_origin (ds : List Element) (acc : List String) :
    ∀ t ∈ fallback_loop ds acc,
      t ∈ acc ∨ ∃ e ∈ ds, t = pyStrip e.text := by
  induction ds generalizing acc with
  | nil => simp [fallback_loop]
  | cons d ds ih =>
    intro t ht
    by_cases hw : 100 < (pyStrip d.text).length ∧ (pyStrip d.text).length < 5000
    · by_cases hf : 10 ≤ (acc ++ [pyStrip d.text]).length
      · rw [fallback_loop_cons_take ds hw hf] at ht
        rcases List.mem_append.mp ht with ht | ht
        · exact Or.inl ht
        · simp at ht
          exact Or.inr ⟨d, by simp, ht⟩
      · rw [fallback_loop_cons_go ds hw hf] at ht
        rcases ih (acc ++ [pyStrip d.text]) t ht with hi | hi
        · rcases List.mem_append.mp hi with hi | hi
          · exact Or.inl hi
          · simp at hi
            exact Or.inr ⟨d, by simp, hi⟩
        · rcases hi with ⟨e, he, hte⟩
          exact Or.inr ⟨e, by simp [he], hte⟩
    · rw [fallback_loop_cons_skip ds hw] at ht
      rcases ih acc t ht with hi | hi
      · exact Or.inl hi
      · rcases hi with ⟨e, he, hte⟩
        exact Or.inr ⟨e, by simp [he], hte⟩

theorem scroll_step_stalled (st : ScrollSt) (obs : ScrollObs)
    (hb : obs.buttons.find? (fun b => clickable_button st b) = none)
    (hs : obs.scrollTop = st.last_scroll_top) :
    scroll_step st obs =
      ⟨st.last_scroll_top, st.scroll_attempts + 1, st.clicked_buttons⟩ := by
  simp [scroll_step, click_phase, hb, hs]

theorem scroll_states_stalled_ge (env : Nat → ScrollObs) (N : Nat)
    (hstall : ∀ i, N ≤ i →
      (env i).scrollTop = (scroll_states env i).last_scroll_top)
    (hnob : ∀ i, N ≤ i →
      (env i).buttons.find?
        (fun b => clickable_button (scroll_states env i) b) = none) :
    ∀ d, d ≤ (scroll_states env (N + d)).scroll_attempts := by
  intro d
  induction d with
  | zero => exact Nat.zero_le _
  | succ d ih =>
    have hstep := scroll_step_stalled (scroll_states env (N + d)) (env (N + d))
      (hnob (N + d) (Nat.le_add_right _ _))
      (hstall (N + d) (Nat.le_add_right _ _))
    have hru : scroll_states env (N + (d + 1)) =
        scroll_step (scroll_states env (N + d)) (env (N + d)) := rfl
    rw [hru, hstep]
    simpa using Nat.succ_le_succ ih

theorem db_at_zero (save_ok : PostFields → Bool) (blocks : List String)
    (s : List String) : db_at save_ok blocks s 0 = s := rfl

theorem db_at_shift (save_ok : PostFields → Bool) (b : String)
    (bs : List String) (s : List String) (j : Nat)
    (h : (process_single_post (idealOps save_ok) b s).1 ≠ Outcome.duplicate) :
    db_at save_ok (b :: bs) s (j + 1) =
      db_at save_ok bs (process_single_post (idealOps save_ok) b s).2 j := by
  unfold db_at
  rw [List.take_succ_cons, run_candidates_cons_nodup _ _ _ _ h]

theorem outcome_at_zero (save_ok : PostFields → Bool) (b : String)
    (bs : List String) (s : List String) :
    outcome_at save_ok (b :: bs) s 0 =
      (process_single_post (idealOps save_ok) b s).1 := rfl

theorem outcome_at_shift (save_ok : PostFields → Bool) (b : String)
    (bs : List String) (s : List String) (j : Nat)
    (h : (process_single_post (idealOps save_ok) b s).1 ≠ Outcome.duplicate) :
    outcome_at save_ok (b :: bs) s (j + 1) =
      outcome_at save_ok bs (process_single_post (idealOps save_ok) b s).2 j := by
  unfold outcome_at
  rw [db_at_shift _ _ _ _ _ h]
  rfl

theorem outcome_at_duplicate_iff (save_ok : PostFields → Bool)
    (blocks : List String) (s : List String) (j : Nat) :
    outcome_at save_ok blocks s j = Outcome.duplicate ↔
      dup_signal save_ok blocks s j := by
  unfold outcome_at dup_signal
  exact process_ideal_duplicate_iff _ _ _

theorem dup_signal_shift (save_ok : PostFields → Bool) (b : String)
    (bs : List String) (s : List String) (j : Nat)
    (h : (process_single_post (idealOps save_ok) b s).1 ≠ Outcome.duplicate) :
    dup_signal save_ok (b :: bs) s (j + 1) ↔
      dup_signal save_ok bs (process_single_post (idealOps save_ok) b s).2 j := by
  unfold dup_signal
  rw [db_at_shift _ _ _ _ _ h]
  simp [List.getD_cons_succ]

theorem run_candidates_first_dup (save_ok : PostFields → Bool)
    (blocks : List String) (s : List String) (k : Nat)
    (hk : k < blocks.length)
    (hfirst : ∀ j, j < k → ¬ dup_signal save_ok blocks s j)
    (hdup : dup_signal save_ok blocks s k) :
    (run_candidates (idealOps save_ok) blocks s).outcomes =
        (List.range (k + 1)).map (outcome_at save_ok blocks s) ∧
      outcome_at save_ok blocks s k = Outcome.duplicate ∧
      (∀ j, j < k → outcome_at save_ok blocks s j ≠ Outcome.duplicate) ∧
      (run_candidates (idealOps save_ok) blocks s).processed_count = k + 1 := by
  induction k generalizing blocks s with
  | zero =>
    cases blocks with
    | nil => simp at hk
    | cons b bs =>
      have h0 := (outcome_at_duplicate_iff save_ok (b :: bs) s 0).mpr hdup
      rw [outcome_at_zero] at h0
      refine ⟨?_, ?_, ?_, ?_⟩
      · rw [run_candidates_cons_dup _ _ _ _ h0]
        simp [List.range_succ, outcome_at_zero, h0]
      · rw [outcome_at_zero]
        exact h0
      · intro j hj
        omega
      · rw [run_candidates_cons_dup _ _ _ _ h0]
  | succ k ih =>
    cases blocks with
    | nil => simp at hk
    | cons b bs =>
      have hnd0 : ¬ dup_signal save_ok (b :: bs) s 0 :=
        hfirst 0 (Nat.succ_pos k)
      have h0 : (process_single_post (idealOps save_ok) b s).1 ≠
          Outcome.duplicate := by
        intro hc
        exact hnd0 ((outcome_at_duplicate_iff save_ok (b :: bs) s 0).mp
          (by rw [outcome_at_zero]; exact hc))
      have hk2 : k < bs.length := by
        simp at hk
        omega
      have hfirst2 : ∀ j, j < k → ¬ dup_signal save_ok bs
          (process_single_post (idealOps save_ok) b s).2 j := by
        intro j hj hd
        exact hfirst (j + 1) (Nat.succ_lt_succ hj)
          ((dup_signal_shift save_ok b bs s j h0).mpr hd)
      have hdup2 : dup_signal save_ok bs
          (process_single_post (idealOps save_ok) b s).2 k :=
        (dup_signal_shift save_ok b bs s k h0).mp hdup
      obtain ⟨ho, hkd, hnodup, hcount⟩ := ih bs
        (process_single_post (idealOps save_ok) b s).2 hk2 hfirst2 hdup2
      refine ⟨?_, ?_, ?_, ?_⟩
      · rw [run_candidates_cons_nodup _ _ _ _ h0]
        simp only [ho]
        conv_rhs => rw [List.range_succ_eq_map]
        simp only [List.map_cons, List.map_map]
        congr 1
        apply List.map_congr_left
        intro j _
        simp only [Function.comp_apply, Nat.succ_eq_add_one]
        exact (outcome_at_shift save_ok b bs s j h0).symm
      · rw [outcome_at_shift save_ok b bs s k h0]
        exact hkd
      · intro j hj
        cases j with
        | zero =>
          rw [outcome_at_zero]
          exact h0
        | succ j =>
          rw [outcome_at_shift save_ok b bs s j h0]
          exact hnodup j (Nat.lt_of_succ_lt_succ hj)
      · rw [run_candidates_cons_nodup _ _ _ _ h0]
        simp only [hcount]

theorem click_phase_last (st : ScrollSt) (obs : ScrollObs) :
    (click_phase st obs).last_scroll_top = st.last_scroll_top := by
  unfold click_phase
  cases h : obs.buttons.find? (fun b => clickable_button st b) <;> simp [h]

theorem stalled_scroll_states (i : Nat) :
    scroll_states stalledEnv i = ⟨0, i, []⟩ := by
  induction i with
  | zero => rfl
  | succ n ih =>
    have hru : scroll_states stalledEnv (n + 1) =
        scroll_step (scroll_states stalledEnv n) (stalledEnv n) := rfl
    rw [hru, ih]
    simp [scroll_step, click_phase, stalledEnv]

/-! ## The claims -/

/-- Claim C5: for every list of input lines, the content formatter transforms
each non-empty trimmed line by the first matching rule in the stated
precedence order - (1) drop `See Less` / lone separator glyph, (2) title
heuristic becomes a heading, (3) `deadline` becomes a flagged warning,
(4) `eligibility`/`process`/`benefits` becomes a bolded label, (5) bullet
lines pass through, (6) `http`/`www.` lines get a link prefix, (7) all other
lines pass through - and joins the results with newline separators in
original order. -/
theorem claim_C5 (lines : List String) :
    create_basic_formatted_content lines = spec_formatted_content lines := by
  unfold create_basic_formatted_content spec_formatted_content
  rw [format_lines_eq_filterMap]

/-- Claim C6: the metadata parser returns the title as the first of the first
5 lines longer than 20 characters containing a title keyword
(case-insensitive), truncated to 100 characters and defaulting to
`Untitled Post`; the author as the first line anywhere containing an
allowlisted name, defaulting to empty; and the posted time as the first line
anywhere containing a relative-time keyword, defaulting to empty. -/
theorem claim_C6 (lines : List String) :
    extract_post_metadata_from_raw lines =
      (spec_title lines, spec_author lines, spec_posted_time lines) := by
  unfold extract_post_metadata_from_raw spec_title spec_author spec_posted_time
  rw [title_loop_eq_find, author_loop_eq_find, time_loop_eq_find]

/-- Claim C9: the content formatter is a pure, deterministic function of its
input lines - two invocations on identical line sequences produce
character-identical formatted content, and hence identical input to the
canonical hash. -/
theorem claim_C9 (L1 L2 : List String) (h : L1 = L2) :
    create_basic_formatted_content L1 = create_basic_formatted_content L2 ∧
      create_post_hash (create_basic_formatted_content L1) =
        create_post_hash (create_basic_formatted_content L2) := by
  subst h
  exact ⟨rfl, rfl⟩

/-- Witness for C9 at the spec's example line sequence. -/
theorem claim_C9_witness :
    create_basic_formatted_content
        ["Exciting internship hiring opportunity at Acme Corp",
         "Apply now http://example.com/apply"] =
      create_basic_formatted_content
        ["Exciting internship hiring opportunity at Acme Corp",
         "Apply now http://example.com/apply"] ∧
      create_post_hash (create_basic_formatted_content
        ["Exciting internship hiring opportunity at Acme Corp",
         "Apply now http://example.com/apply"]) =
      create_post_hash (create_basic_formatted_content
        ["Exciting internship hiring opportunity at Acme Corp",
         "Apply now http://example.com/apply"]) :=
  claim_C9 _ _ rfl

/-- Claim C10: an extracted element whose stripped text is empty or no longer
than 50 characters produces no outcome at all - the extraction loop behaves
exactly as if the element were absent (it is not processed, not counted, not
saved, and cannot trigger the duplicate halt), and it contributes no
candidate block. -/
theorem claim_C10 {σ : Type} (ops : DBOps σ) (e : String)
    (rest : List String) (s : σ)
    (h : pyStrip e = "" ∨ (pyStrip e).length ≤ 50) :
    extract_loop ops (e :: rest) s = extract_loop ops rest s ∧
      candidate_blocks (e :: rest) = candidate_blocks rest := by
  have hg : ¬ (pyStrip e ≠ "" ∧ 50 < (pyStrip e).length) := by
    rcases h with h | h
    · intro hc
      exact hc.1 h
    · intro hc
      omega
  constructor
  · simp [extract_loop, hg]
  · simp only [candidate_blocks, List.map_cons, List.filter_cons]
    simp [hg]

/-- Witness for C10: a 5-character element is invisible to the loop. -/
theorem claim_C10_witness :
    extract_loop (idealOps (fun _ => true)) ["short"] [] =
        extract_loop (idealOps (fun _ => true)) [] [] ∧
      candidate_blocks ["short"] = candidate_blocks [] :=
  claim_C10 (idealOps (fun _ => true)) "short" [] [] (by decide)

/-- Claim C4: a candidate block that reduces to fewer than 3 meaningful lines
is `skipped`: the store is untouched and independent of the block (any store
oracle and state yield the same outcome, so no store query or save is
attempted), and the pipeline continues with the next block - the skip is
neither an error nor a stop condition. -/
theorem claim_C4 {σ σ2 : Type} (ops : DBOps σ) (ops2 : DBOps σ2)
    (text : String) (s : σ) (s2 : σ2) (rest : List String)
    (h : meaningful_lines text = [] ∨ (meaningful_lines text).length < 3) :
    process_single_post ops text s = (Outcome.skipped, s) ∧
      (process_single_post ops2 text s2).1 = Outcome.skipped ∧
      run_candidates ops (text :: rest) s =
        ⟨Outcome.skipped :: (run_candidates ops rest s).outcomes,
         (run_candidates ops rest s).new_posts,
         (run_candidates ops rest s).processed_count + 1,
         (run_candidates ops rest s).final⟩ := by
  have h1 : process_single_post ops text s = (Outcome.skipped, s) := by
    unfold process_single_post
    rw [if_pos h]
  have h2 : process_single_post ops2 text s2 = (Outcome.skipped, s2) := by
    unfold process_single_post
    rw [if_pos h]
  refine ⟨h1, by rw [h2], ?_⟩
  rw [run_candidates_cons_nodup _ _ _ _ (by rw [h1]; simp)]
  rw [h1]
  simp

/-- Witness for C4 at the spec's example block `["hi", "ok"]`. -/
theorem claim_C4_witness :
    process_single_post (idealOps (fun _ => true)) "hi\nok" [] =
        (Outcome.skipped, ([] : List String)) ∧
      (process_single_post failing_save_ops "hi\nok" ()).1 =
        Outcome.skipped ∧
      run_candidates (idealOps (fun _ => true)) ["hi\nok"] [] =
        ⟨Outcome.skipped :: (run_candidates (idealOps (fun _ => true)) []
           ([] : List String)).outcomes,
         (run_candidates (idealOps (fun _ => true)) []
           ([] : List String)).new_posts,
         (run_candidates (idealOps (fun _ => true)) []
           ([] : List String)).processed_count + 1,
         (run_candidates (idealOps (fun _ => true)) []
           ([] : List String)).final⟩ :=
  claim_C4 (idealOps (fun _ => true)) failing_save_ops "hi\nok" [] () []
    (by decide)

/-- Claim C3 (amended): when the incremental extraction pass finishes
(normally or via the duplicate halt), it returns the list of newly saved
posts' raw stripped text together with the processed count; the saved count
is recoverable as the length of that list and the processed count equals the
number of per-block outcomes, but skipped and errored tallies are not part of
the return value. -/
theorem claim_C3_amended {σ : Type} (ops : DBOps σ) (elements : List String)
    (s : σ) :
    extract_content_incrementally ops elements s =
        ((extract_loop ops elements s).new_posts,
         (extract_loop ops elements s).processed_count) ∧
      (extract_loop ops elements s).processed_count =
        (extract_loop ops elements s).outcomes.length ∧
      (extract_loop ops elements s).new_posts.length =
        ((extract_loop ops elements s).outcomes.filter
          (fun o => o = Outcome.saved)).length :=
  ⟨rfl, extract_loop_count_eq_outcomes ops elements s,
   extract_loop_new_posts_length ops elements s⟩

/-- Counterexample to C3 as stated: an errored run and a skipped run return
the identical value `([], 1)`, so the claimed skipped/errored counts cannot
be part of what the pass returns. -/
theorem claim_C3_counterexample :
    extract_content_incrementally (idealOps (fun _ => false))
        ["Campus connect placement drive announcement for everyone\nEligibility: all students\nApply today at the portal"]
        [] =
      extract_content_incrementally (idealOps (fun _ => true))
        ["bbbbbbbbbbbbbbbbbbbbbbbbbbbbbbbbbbbbbbbbbbbbbbbbbbbbbbbbbbbb"]
        [] ∧
      (extract_loop (idealOps (fun _ => false))
        ["Campus connect placement drive announcement for everyone\nEligibility: all students\nApply today at the portal"]
        []).outcomes = [Outcome.error] ∧
      (extract_loop (idealOps (fun _ => true))
        ["bbbbbbbbbbbbbbbbbbbbbbbbbbbbbbbbbbbbbbbbbbbbbbbbbbbbbbbbbbbb"]
        []).outcomes = [Outcome.skipped] ∧
      Outcome.error ≠ Outcome.skipped := by
  decide

/-- Claim C2 (amended): when every selector in the ordered chain yields zero
elements, `extract_content_incrementally` falls back to the broad
`div[class*='px-5']` query (no scan bound, no length window, no cap), while
the separate `fallback_content_extraction` helper - not invoked by the
incremental extraction - scans only the first 50 divs, keeps stripped texts
whose length lies strictly between 100 and 5000 characters, and stops once 10
blocks are collected. -/
theorem claim_C2_amended (doc : List Element) :
    (try_selectors selectors_to_try doc = [] →
      select_content_elements doc = doc.filter selector_sub_px5) ∧
      (fallback_content_extraction doc).length ≤ 10 ∧
      (∀ t ∈ fallback_content_extraction doc,
        100 < t.length ∧ t.length < 5000) ∧
      (∀ t ∈ fallback_content_extraction doc,
        ∃ e ∈ doc.take 50, t = pyStrip e.text) := by
  refine ⟨?_, ?_, ?_, ?_⟩
  · intro h
    simp [select_content_elements, h]
  · exact fallback_loop_length_le _ _ (by simp)
  · exact fallback_loop_window _ _ (by simp)
  · intro t ht
    unfold fallback_content_extraction at ht
    rcases fallback_loop_origin (doc.take 50) [] t ht with hi | hi
    · simp at hi
    · exact hi

/-- Witness for the amended C2 on a one-element document whose class contains
`px-5` only as a substring. -/
theorem claim_C2_witness :
    select_content_elements
        [⟨"px-55", String.mk (List.replicate 120 'd')⟩] =
      List.filter selector_sub_px5
        [⟨"px-55", String.mk (List.replicate 120 'd')⟩] ∧
      (fallback_content_extraction
        [⟨"px-55", String.mk (List.replicate 120 'd')⟩]).length ≤ 10 :=
  ⟨(claim_C2_amended _).1 (by decide), (claim_C2_amended _).2.1⟩

/-- Counterexample to C2 as stated: a document on which every chain selector
fails yet the pass processes 12 candidate blocks - the extraction fallback is
the uncapped `div[class*='px-5']` query, not the windowed 10-block scan. -/
theorem claim_C2_counterexample :
    try_selectors selectors_to_try
        (List.replicate 12
          (⟨"px-55", String.mk (List.replicate 52 'c')⟩ : Element)) = [] ∧
      (extract_content_incrementally (idealOps (fun _ => true))
        ((select_content_elements (List.replicate 12
          (⟨"px-55", String.mk (List.replicate 52 'c')⟩ : Element))).map
            Element.text) []).2 = 12 ∧
      ¬ (12 ≤ 10) := by
  decide

/-- Claim C1 (amended): for every ordered sequence of candidate blocks, if
block `k` is the first block that passes the minimum-line gate and whose
formatted-content hash already exists in the store state it is checked
against, then blocks `0..k-1` each receive their computed outcome (none of
which is `duplicate`), block `k` receives `duplicate`, and no block after `k`
is processed at all (the outcome trace and the processed count both stop at
`k + 1`). -/
theorem claim_C1_amended (save_ok : PostFields → Bool) (blocks : List String)
    (s : List String) (k : Nat) (hk : k < blocks.length)
    (hfirst : ∀ j, j < k → ¬ dup_signal save_ok blocks s j)
    (hdup : dup_signal save_ok blocks s k) :
    (run_candidates (idealOps save_ok) blocks s).outcomes =
        (List.range (k + 1)).map (outcome_at save_ok blocks s) ∧
      outcome_at save_ok blocks s k = Outcome.duplicate ∧
      (∀ j, j < k → outcome_at save_ok blocks s j ≠ Outcome.duplicate) ∧
      (run_candidates (idealOps save_ok) blocks s).processed_count = k + 1 :=
  run_candidates_first_dup save_ok blocks s k hk hfirst hdup

/-- Witness for the amended C1: two identical valid blocks - the first is
saved, the second is the first duplicate, and the run stops at it. -/
theorem claim_C1_witness :
    (run_candidates (idealOps (fun _ => true))
        ["Internship hiring open for applications now at FooCorp\nEligibility: all students welcome\nApply today http://x.example.com",
         "Internship hiring open for applications now at FooCorp\nEligibility: all students welcome\nApply today http://x.example.com"]
        []).outcomes =
        (List.range 2).map (outcome_at (fun _ => true)
          ["Internship hiring open for applications now at FooCorp\nEligibility: all students welcome\nApply today http://x.example.com",
           "Internship hiring open for applications now at FooCorp\nEligibility: all students welcome\nApply today http://x.example.com"]
          []) ∧
      outcome_at (fun _ => true)
        ["Internship hiring open for applications now at FooCorp\nEligibility: all students welcome\nApply today http://x.example.com",
         "Internship hiring open for applications now at FooCorp\nEligibility: all students welcome\nApply today http://x.example.com"]
        [] 1 = Outcome.duplicate ∧
      (∀ j, j < 1 → outcome_at (fun _ => true)
        ["Internship hiring open for applications now at FooCorp\nEligibility: all students welcome\nApply today http://x.example.com",
         "Internship hiring open for applications now at FooCorp\nEligibility: all students welcome\nApply today http://x.example.com"]
        [] j ≠ Outcome.duplicate) ∧
      (run_candidates (idealOps (fun _ => true))
        ["Internship hiring open for applications now at FooCorp\nEligibility: all students welcome\nApply today http://x.example.com",
         "Internship hiring open for applications now at FooCorp\nEligibility: all students welcome\nApply today http://x.example.com"]
        []).processed_count = 2 :=
  claim_C1_amended (fun _ => true) _ [] 1 (by decide)
    (by
      intro j hj
      have hj0 : j = 0 := by omega
      subst hj0
      decide)
    (by decide)

/-- Counterexample to C1 as stated: a single candidate block (61 meaningful
characters on one line, so it passes the 50-character element gate) whose
formatted-content hash is already in the store; it is the first such block,
yet its outcome is `skipped`, not `duplicate`, because the minimum-line gate
fires before the hash query. -/
theorem claim_C1_counterexample :
    (pyStrip "aaaaaaaaaaaaaaaaaaaaaaaaaaaaaaaaaaaaaaaaaaaaaaaaaaaaaaaaaaaaa" ≠ ""
        ∧ 50 < (pyStrip "aaaaaaaaaaaaaaaaaaaaaaaaaaaaaaaaaaaaaaaaaaaaaaaaaaaaaaaaaaaaa").length) ∧
      create_post_hash (create_basic_formatted_content (meaningful_lines
        "aaaaaaaaaaaaaaaaaaaaaaaaaaaaaaaaaaaaaaaaaaaaaaaaaaaaaaaaaaaaa")) ∈
        ["aaaaaaaaaaaaaaaaaaaaaaaaaaaaaaaaaaaaaaaaaaaaaaaaaaaaaaaaaaaaa"] ∧
      (run_candidates (idealOps (fun _ => true))
        ["aaaaaaaaaaaaaaaaaaaaaaaaaaaaaaaaaaaaaaaaaaaaaaaaaaaaaaaaaaaaa"]
        ["aaaaaaaaaaaaaaaaaaaaaaaaaaaaaaaaaaaaaaaaaaaaaaaaaaaaaaaaaaaaa"]).outcomes
        = [Outcome.skipped] ∧
      Outcome.skipped ≠ Outcome.duplicate := by
  decide

/-- Claim C7: a failure raised by the store operations during a block's
hashing, dedup query, or persistence yields outcome `error` for that block
only (as does a failed save verdict), and an errored block never halts the
pipeline - the loop continues with the remaining blocks. -/
theorem claim_C7 {σ : Type} (ops : DBOps σ) (text b : String) (s sb : σ)
    (rest : List String)
    (hlines : ¬ (meaningful_lines text = [] ∨
      (meaningful_lines text).length < 3)) :
    (∀ m s1, ops.hash_op (create_basic_formatted_content
        (meaningful_lines text)) s = (Except.error m, s1) →
      process_single_post ops text s = (Outcome.error, s1)) ∧
      (∀ h1 s1 m s2, ops.hash_op (create_basic_formatted_content
          (meaningful_lines text)) s = (Except.ok h1, s1) →
        ops.exists_op h1 s1 = (Except.error m, s2) →
        process_single_post ops text s = (Outcome.error, s2)) ∧
      (∀ h1 s1 s2 m s3, ops.hash_op (create_basic_formatted_content
          (meaningful_lines text)) s = (Except.ok h1, s1) →
        ops.exists_op h1 s1 = (Except.ok false, s2) →
        ops.save_op
          ⟨(extract_post_metadata_from_raw (meaningful_lines text)).1,
           create_basic_formatted_content (meaningful_lines text),
           pyJoinNl (meaningful_lines text),
           (extract_post_metadata_from_raw (meaningful_lines text)).2.1,
           (extract_post_metadata_from_raw (meaningful_lines text)).2.2⟩ s2 =
          (Except.error m, s3) →
        process_single_post ops text s = (Outcome.error, s3)) ∧
      (∀ h1 s1 s2 r s3, ops.hash_op (create_basic_formatted_content
          (meaningful_lines text)) s = (Except.ok h1, s1) →
        ops.exists_op h1 s1 = (Except.ok false, s2) →
        ops.save_op
          ⟨(extract_post_metadata_from_raw (meaningful_lines text)).1,
           create_basic_formatted_content (meaningful_lines text),
           pyJoinNl (meaningful_lines text),
           (extract_post_metadata_from_raw (meaningful_lines text)).2.1,
           (extract_post_metadata_from_raw (meaningful_lines text)).2.2⟩ s2 =
          (Except.ok (false, r), s3) →
        process_single_post ops text s = (Outcome.error, s3)) ∧
      ((process_single_post ops b sb).1 = Outcome.error →
        run_candidates ops (b :: rest) sb =
          ⟨Outcome.error :: (run_candidates ops rest
             (process_single_post ops b sb).2).outcomes,
           (run_candidates ops rest
             (process_single_post ops b sb).2).new_posts,
           (run_candidates ops rest
             (process_single_post ops b sb).2).processed_count + 1,
           (run_candidates ops rest
             (process_single_post ops b sb).2).final⟩) := by
  refine ⟨?_, ?_, ?_, ?_, ?_⟩
  · intro m s1 hh
    simp [process_single_post, hlines, hh]
  · intro h1 s1 m s2 hh he
    simp [process_single_post, hlines, hh, he]
  · intro h1 s1 s2 m s3 hh he hs
    simp [process_single_post, hlines, hh, he, hs]
  · intro h1 s1 s2 r s3 hh he hs
    simp [process_single_post, hlines, hh, he, hs]
  · intro he
    rw [run_candidates_cons_nodup _ _ _ _ (by rw [he]; simp)]
    rw [he]
    simp

/-- Witness for C7: the always-throwing save oracle classifies a valid block
`error` and the run proceeds past it. -/
theorem claim_C7_witness :
    process_single_post failing_save_ops
        "Internship hiring open for applications now\nEligibility: everyone\nApply at http://portal.example"
        () = (Outcome.error, ()) ∧
      run_candidates failing_save_ops
        ["Internship hiring open for applications now\nEligibility: everyone\nApply at http://portal.example"]
        () =
        ⟨Outcome.error :: (run_candidates failing_save_ops [] ()).outcomes,
         (run_candidates failing_save_ops [] ()).new_posts,
         (run_candidates failing_save_ops [] ()).processed_count + 1,
         (run_candidates failing_save_ops [] ()).final⟩ := by
  have H := claim_C7 failing_save_ops
    "Internship hiring open for applications now\nEligibility: everyone\nApply at http://portal.example"
    "Internship hiring open for applications now\nEligibility: everyone\nApply at http://portal.example"
    () () [] (by decide)
  have h3 := H.2.2.1 (create_post_hash (create_basic_formatted_content
    (meaningful_lines
      "Internship hiring open for applications now\nEligibility: everyone\nApply at http://portal.example")))
    () () "db down" () rfl rfl rfl
  refine ⟨h3, ?_⟩
  have h5 := H.2.2.2.2 (by rw [h3])
  rw [h5, h3]

/-- Claim C8: under the precondition that a scrollable container was found,
if from some iteration on the container's scroll position never changes and
no unclicked visible-and-enabled "See More" control is found, the loading
loop's stall counter reaches `max_attempts = 5` within 5 further iterations,
so the `while scroll_attempts < max_attempts` loop terminates; a
scroll-position change resets the counter to 0, as does clicking a control. -/
theorem claim_C8 (env : Nat → ScrollObs) (N : Nat)
    (hstall : ∀ i, N ≤ i →
      (env i).scrollTop = (scroll_states env i).last_scroll_top)
    (hnob : ∀ i, N ≤ i →
      (env i).buttons.find?
        (fun b => clickable_button (scroll_states env i) b) = none) :
    (∃ j, j ≤ N + max_attempts ∧
      max_attempts ≤ (scroll_states env j).scroll_attempts) ∧
      (∀ i, (env i).scrollTop ≠ (scroll_states env i).last_scroll_top →
        (scroll_states env (i + 1)).scroll_attempts = 0) ∧
      (∀ st obs bt, obs.buttons.find?
          (fun bb => clickable_button st bb) = some bt →
        (click_phase st obs).scroll_attempts = 0) := by
  refine ⟨?_, ?_, ?_⟩
  · exact ⟨N + max_attempts, le_refl _,
      scroll_states_stalled_ge env N hstall hnob max_attempts⟩
  · intro i hne
    have hru : scroll_states env (i + 1) =
        scroll_step (scroll_states env i) (env i) := rfl
    rw [hru]
    unfold scroll_step
    simp [click_phase_last, hne]
  · intro st obs bt hf
    simp [click_phase, hf]

/-- Witness for C8: the button-free constant environment stalls from
iteration 0 and the counter reaches 5 by iteration 5. -/
theorem claim_C8_witness :
    ∃ j, j ≤ 0 + max_attempts ∧
      max_attempts ≤ (scroll_states stalledEnv j).scroll_attempts := by
  have h1 : ∀ i, 0 ≤ i →
      (stalledEnv i).scrollTop = (scroll_states stalledEnv i).last_scroll_top := by
    intro i _
    rw [stalled_scroll_states i]
    rfl
  have h2 : ∀ i, 0 ≤ i →
      (stalledEnv i).buttons.find?
        (fun b => clickable_button (scroll_states stalledEnv i) b) = none := by
    intro i _
    rfl
  exact (claim_C8 stalledEnv 0 h1 h2).1
